import Mathlib

/-!
Shallow embedding of the Alexa Smart Home Lambda bridge
(`lambda.py` together with the static catalog `appliances.py`).

Modelling conventions:
* Python dictionaries with a fixed shape become Lean structures; keys that
  may be absent become `Option` fields.
* `get_uuid ()` and `get_utc_timestamp ()` are impure; each handler takes
  the value they would return as an explicit argument (`uuid`, `ts`).
* The Spark device cloud is an external collaborator; its only observable
  input to the handlers is `sparkDevice.connected`, passed as a `connected`
  argument, and its only observable output is the list of JSON commands
  handed to `sparkDevice.JSONCommand`, collected in the handler result.
* Constants imported from `config.py` (a file the repository expects but
  does not ship) are gathered in a `Config` record threaded through the
  functions that use them.
* A Python handler can return a dictionary, fall off the end (returning
  `None`), or raise (`KeyError` on a missing key, `ValueError` from `int`,
  `UnboundLocalError` on an unassigned local); the result types below keep
  those outcomes apart.
-/

/-- Constants imported from `config.py` (not shipped in the repository):
the default Particle device identity, the node ids used by the catalog,
and the fallback model name. -/
structure Config where
  PARTICLE_DEVICE_ID : String
  PARTICLE_NODE_MAIN : String
  PARTICLE_NODE_SECOND : String
  PARTICLE_NODE_KM : String
  PARTICLE_DEFAULT_MODEL : String
deriving DecidableEq

/-- `additionalApplianceDetails` of a v2 appliance / `cookie` of a v3
endpoint: the vendor addressing info. -/
structure Cookie where
  deviceId : String
  nodeId : String
deriving DecidableEq, Inhabited

/-- A v2 appliance descriptor as stored in `SAMPLE_APPLIANCES`. -/
structure Appliance where
  applianceId : String
  manufacturerName : String
  modelName : String
  version : String
  friendlyName : String
  friendlyDescription : String
  isReachable : Bool
  actions : List String
  additionalApplianceDetails : Cookie
deriving DecidableEq, Inhabited

/-- The `properties` block of a v3 capability: the supported property
names plus the two reporting flags. -/
structure CapabilityProperties where
  supported : List String
  proactivelyReported : Bool
  retrievable : Bool
deriving DecidableEq

/-- One entry of `cameraStreamConfigurations` (Smart Camera model). -/
structure CameraStreamConfiguration where
  protocols : List String
  resolutionWidths : List Nat
  resolutionHeights : List Nat
  authorizationTypes : List String
  videoCodecs : List String
  audioCodecs : List String
deriving DecidableEq

/-- A v3 capability record.  The scene-trigger models carry a top-level
`supportsDeactivation` / `proactivelyReported` pair instead of a
`properties` block, and the camera model carries stream configurations;
absent keys are `none`. -/
structure Capability where
  type : String
  interface : String
  version : String
  properties : Option CapabilityProperties := none
  supportsDeactivation : Option Bool := none
  proactivelyReported : Option Bool := none
  cameraStreamConfigurations : Option (List CameraStreamConfiguration) := none
deriving DecidableEq

/-- A v3 endpoint, the target shape of the descriptor translator. -/
structure Endpoint where
  endpointId : String
  manufacturerName : String
  friendlyName : String
  description : String
  displayCategories : List String
  cookie : Cookie
  capabilities : List Capability
deriving DecidableEq

/-- `SAMPLE_APPLIANCES` from `appliances.py`: the three-entry static
catalog (a switch, a color light, a white light). -/
def SAMPLE_APPLIANCES (cfg : Config) : List Appliance :=
  [ { applianceId := "node_" ++ cfg.PARTICLE_NODE_KM,
      manufacturerName := "Xlight",
      modelName := "Smart Switch",
      version := "1",
      friendlyName := "Switch",
      friendlyDescription := "001 Switch that can only be turned on/off",
      isReachable := true,
      actions := ["turnOn", "turnOff"],
      additionalApplianceDetails :=
        { deviceId := cfg.PARTICLE_DEVICE_ID, nodeId := cfg.PARTICLE_NODE_KM } },
    { applianceId := "node_" ++ cfg.PARTICLE_NODE_MAIN,
      manufacturerName := "Xlight",
      modelName := "Smart Light",
      version := "1",
      friendlyName := "Rainbow",
      friendlyDescription :=
        "002 Light (Rainbow) that is dimmable and can change color and color temperature",
      isReachable := true,
      actions := ["turnOn", "turnOff", "setPercentage", "incrementPercentage",
        "decrementPercentage", "setColor", "setColorTemperature",
        "incrementColorTemperature", "decrementColorTemperature"],
      additionalApplianceDetails :=
        { deviceId := cfg.PARTICLE_DEVICE_ID, nodeId := cfg.PARTICLE_NODE_KM } },
    { applianceId := "node_" ++ cfg.PARTICLE_NODE_SECOND,
      manufacturerName := "Sample Manufacturer",
      modelName := "Smart White Light",
      version := "1",
      friendlyName := "Sunny",
      friendlyDescription :=
        "003 Light (Sunny) that is dimmable and can change color temperature only",
      isReachable := true,
      actions := ["turnOn", "turnOff", "setPercentage", "incrementPercentage",
        "decrementPercentage", "setColorTemperature", "incrementColorTemperature",
        "decrementColorTemperature"],
      additionalApplianceDetails :=
        { deviceId := cfg.PARTICLE_DEVICE_ID, nodeId := cfg.PARTICLE_NODE_KM } } ]

/-- The power-state capability literal (used by the switch model, both
light models and the unknown-model fallback). -/
def cap_power_controller : Capability :=
  { type := "AlexaInterface", interface := "Alexa.PowerController", version := "3",
    properties := some
      { supported := ["powerState"], proactivelyReported := true, retrievable := true } }

/-- The color capability literal of the Smart Light model. -/
def cap_color_controller : Capability :=
  { type := "AlexaInterface", interface := "Alexa.ColorController", version := "3",
    properties := some
      { supported := ["color"], proactivelyReported := true, retrievable := true } }

/-- The color-temperature capability literal of the light models. -/
def cap_color_temperature_controller : Capability :=
  { type := "AlexaInterface", interface := "Alexa.ColorTemperatureController", version := "3",
    properties := some
      { supported := ["colorTemperatureInKelvin"], proactivelyReported := true,
        retrievable := true } }

/-- The brightness capability literal of the light models. -/
def cap_brightness_controller : Capability :=
  { type := "AlexaInterface", interface := "Alexa.BrightnessController", version := "3",
    properties := some
      { supported := ["brightness"], proactivelyReported := true, retrievable := true } }

/-- The power-level capability literal of the light models. -/
def cap_power_level_controller : Capability :=
  { type := "AlexaInterface", interface := "Alexa.PowerLevelController", version := "3",
    properties := some
      { supported := ["powerLevel"], proactivelyReported := true, retrievable := true } }

/-- The percentage capability literal of the light models. -/
def cap_percentage_controller : Capability :=
  { type := "AlexaInterface", interface := "Alexa.PercentageController", version := "3",
    properties := some
      { supported := ["percentage"], proactivelyReported := true, retrievable := true } }

/-- The thermostat capability literal of the single-setpoint thermostat. -/
def cap_thermostat_controller_single : Capability :=
  { type := "AlexaInterface", interface := "Alexa.ThermostatController", version := "3",
    properties := some
      { supported := ["targetSetpoint", "thermostatMode"], proactivelyReported := true,
        retrievable := true } }

/-- The thermostat capability literal of the dual-setpoint thermostat. -/
def cap_thermostat_controller_dual : Capability :=
  { type := "AlexaInterface", interface := "Alexa.ThermostatController", version := "3",
    properties := some
      { supported := ["upperSetpoint", "lowerSetpoint", "thermostatMode"],
        proactivelyReported := true, retrievable := true } }

/-- The temperature-sensor capability literal of the thermostat models. -/
def cap_temperature_sensor : Capability :=
  { type := "AlexaInterface", interface := "Alexa.TemperatureSensor", version := "3",
    properties := some
      { supported := ["temperature"], proactivelyReported := true, retrievable := true } }

/-- The lock capability literal of the Smart Lock model. -/
def cap_lock_controller : Capability :=
  { type := "AlexaInterface", interface := "Alexa.LockController", version := "3",
    properties := some
      { supported := ["lockState"], proactivelyReported := true, retrievable := true } }

/-- The scene capability literal of the Smart Scene model (no deactivation). -/
def cap_scene_controller_no_deactivation : Capability :=
  { type := "AlexaInterface", interface := "Alexa.SceneController", version := "3",
    supportsDeactivation := some false, proactivelyReported := some true }

/-- The scene capability literal of the Smart Activity model (deactivation). -/
def cap_scene_controller_with_deactivation : Capability :=
  { type := "AlexaInterface", interface := "Alexa.SceneController", version := "3",
    supportsDeactivation := some true, proactivelyReported := some true }

/-- The camera-stream capability literal of the Smart Camera model. -/
def cap_camera_stream_controller : Capability :=
  { type := "AlexaInterface", interface := "Alexa.CameraStreamController", version := "3",
    cameraStreamConfigurations := some
      [ { protocols := ["RTSP"], resolutionWidths := [1280], resolutionHeights := [720],
          authorizationTypes := ["NONE"], videoCodecs := ["H264"], audioCodecs := ["AAC"] } ] }

/-- `endpoint_health_capability` from `get_capabilities_from_v2_appliance`:
the connectivity/health capability appended to every endpoint. -/
def endpoint_health_capability : Capability :=
  { type := "AlexaInterface", interface := "Alexa.EndpointHealth", version := "3",
    properties := some
      { supported := ["connectivity"], proactivelyReported := true, retrievable := true } }

/-- `alexa_interface_capability` from `get_capabilities_from_v2_appliance`:
the bare protocol-identity capability appended to every endpoint. -/
def alexa_interface_capability : Capability :=
  { type := "AlexaInterface", interface := "Alexa", version := "3" }

/-- `get_display_categories_from_v2_appliance` (lambda.py): the fixed
`modelName` to single-display-category lookup, `["OTHER"]` as fallback. -/
def get_display_categories_from_v2_appliance (appliance : Appliance) : List String :=
  let model_name := appliance.modelName
  if model_name = "Smart Switch" then ["SWITCH"]
  else if model_name = "Smart Light" then ["LIGHT"]
  else if model_name = "Smart White Light" then ["LIGHT"]
  else if model_name = "Smart Thermostat" then ["THERMOSTAT"]
  else if model_name = "Smart Lock" then ["SMARTLOCK"]
  else if model_name = "Smart Scene" then ["SCENE_TRIGGER"]
  else if model_name = "Smart Activity" then ["ACTIVITY_TRIGGER"]
  else if model_name = "Smart Camera" then ["CAMERA"]
  else ["OTHER"]

/-- `get_capabilities_from_v2_appliance` (lambda.py): the fixed
`modelName` to capability-list lookup (single power capability as
fallback), followed by the two appends of the universal capabilities. -/
def get_capabilities_from_v2_appliance (appliance : Appliance) : List Capability :=
  let model_name := appliance.modelName
  let capabilities : List Capability :=
    if model_name = "Smart Switch" then [cap_power_controller]
    else if model_name = "Smart Light" then
      [cap_power_controller, cap_color_controller, cap_color_temperature_controller,
       cap_brightness_controller, cap_power_level_controller, cap_percentage_controller]
    else if model_name = "Smart White Light" then
      [cap_power_controller, cap_color_temperature_controller, cap_brightness_controller,
       cap_power_level_controller, cap_percentage_controller]
    else if model_name = "Smart Thermostat" then
      [cap_thermostat_controller_single, cap_temperature_sensor]
    else if model_name = "Smart Thermostat Dual" then
      [cap_thermostat_controller_dual, cap_temperature_sensor]
    else if model_name = "Smart Lock" then [cap_lock_controller]
    else if model_name = "Smart Scene" then [cap_scene_controller_no_deactivation]
    else if model_name = "Smart Activity" then [cap_scene_controller_with_deactivation]
    else if model_name = "Smart Camera" then [cap_camera_stream_controller]
    else [cap_power_controller]
  capabilities ++ [endpoint_health_capability, alexa_interface_capability]

/-- `get_endpoint_from_v2_appliance` (lambda.py): copy the identity
fields, then fill in display categories and capabilities. -/
def get_endpoint_from_v2_appliance (appliance : Appliance) : Endpoint :=
  { endpointId := appliance.applianceId,
    manufacturerName := appliance.manufacturerName,
    friendlyName := appliance.friendlyName,
    description := appliance.friendlyDescription,
    displayCategories := get_display_categories_from_v2_appliance appliance,
    cookie := appliance.additionalApplianceDetails,
    capabilities := get_capabilities_from_v2_appliance appliance }

/-- `get_appliance_by_appliance_id` (lambda.py): linear search of the
catalog, `None` when absent. -/
def get_appliance_by_appliance_id (cfg : Config) (appliance_id : String) : Option Appliance :=
  (SAMPLE_APPLIANCES cfg).find? (fun appliance => appliance.applianceId = appliance_id)

/-- Any capability list produced by appending the two universal
capabilities ends in exactly those two entries. -/
theorem append_universal_caps_last (l : List Capability) :
    2 ≤ (l ++ [endpoint_health_capability, alexa_interface_capability]).length ∧
    (l ++ [endpoint_health_capability, alexa_interface_capability]).drop
        ((l ++ [endpoint_health_capability, alexa_interface_capability]).length - 2) =
      [endpoint_health_capability, alexa_interface_capability] := by
  constructor
  · simp [List.length_append]
  · have hlen : (l ++ [endpoint_health_capability, alexa_interface_capability]).length - 2
        = l.length := by simp [List.length_append]
    rw [hlen]
    exact List.drop_left l [endpoint_health_capability, alexa_interface_capability]

/-- C1: translating any appliance descriptor to a v3 endpoint succeeds
(the translator is a total function) and the resulting capability list
has at least two entries, the last two being the `Alexa.EndpointHealth`
capability followed by the bare `Alexa` interface capability, after all
model-specific capabilities, regardless of `modelName`. -/
theorem translate_appends_universal_capabilities_last (appliance : Appliance) :
    2 ≤ (get_endpoint_from_v2_appliance appliance).capabilities.length ∧
    (get_endpoint_from_v2_appliance appliance).capabilities.drop
        ((get_endpoint_from_v2_appliance appliance).capabilities.length - 2) =
      [endpoint_health_capability, alexa_interface_capability] := by
  simp only [get_endpoint_from_v2_appliance, get_capabilities_from_v2_appliance]
  exact append_universal_caps_last _

/-- The model names that appear in either of the two lookup tables of the
translator (the display-category table has no entry for
"Smart Thermostat Dual"; the capability table has one). -/
def knownModelNames : List String :=
  ["Smart Switch", "Smart Light", "Smart White Light", "Smart Thermostat",
   "Smart Thermostat Dual", "Smart Lock", "Smart Scene", "Smart Activity", "Smart Camera"]

/-- C2: a descriptor whose `modelName` is not a known model translates to
exactly the fallback power capability plus the two universal capabilities
and display categories `["OTHER"]`; each known `modelName` translates to
exactly the capability set and single display category of the fixed
lookup tables. -/
theorem translate_matches_lookup_tables (a : Appliance) :
    (a.modelName ∉ knownModelNames →
      (get_endpoint_from_v2_appliance a).capabilities =
        [cap_power_controller, endpoint_health_capability, alexa_interface_capability] ∧
      (get_endpoint_from_v2_appliance a).displayCategories = ["OTHER"]) ∧
    (a.modelName = "Smart Switch" →
      (get_endpoint_from_v2_appliance a).capabilities =
        [cap_power_controller, endpoint_health_capability, alexa_interface_capability] ∧
      (get_endpoint_from_v2_appliance a).displayCategories = ["SWITCH"]) ∧
    (a.modelName = "Smart Light" →
      (get_endpoint_from_v2_appliance a).capabilities =
        [cap_power_controller, cap_color_controller, cap_color_temperature_controller,
         cap_brightness_controller, cap_power_level_controller, cap_percentage_controller,
         endpoint_health_capability, alexa_interface_capability] ∧
      (get_endpoint_from_v2_appliance a).displayCategories = ["LIGHT"]) ∧
    (a.modelName = "Smart White Light" →
      (get_endpoint_from_v2_appliance a).capabilities =
        [cap_power_controller, cap_color_temperature_controller, cap_brightness_controller,
         cap_power_level_controller, cap_percentage_controller,
         endpoint_health_capability, alexa_interface_capability] ∧
      (get_endpoint_from_v2_appliance a).displayCategories = ["LIGHT"]) ∧
    (a.modelName = "Smart Thermostat" →
      (get_endpoint_from_v2_appliance a).capabilities =
        [cap_thermostat_controller_single, cap_temperature_sensor,
         endpoint_health_capability, alexa_interface_capability] ∧
      (get_endpoint_from_v2_appliance a).displayCategories = ["THERMOSTAT"]) ∧
    (a.modelName = "Smart Thermostat Dual" →
      (get_endpoint_from_v2_appliance a).capabilities =
        [cap_thermostat_controller_dual, cap_temperature_sensor,
         endpoint_health_capability, alexa_interface_capability] ∧
      (get_endpoint_from_v2_appliance a).displayCategories = ["OTHER"]) ∧
    (a.modelName = "Smart Lock" →
      (get_endpoint_from_v2_appliance a).capabilities =
        [cap_lock_controller, endpoint_health_capability, alexa_interface_capability] ∧
      (get_endpoint_from_v2_appliance a).displayCategories = ["SMARTLOCK"]) ∧
    (a.modelName = "Smart Scene" →
      (get_endpoint_from_v2_appliance a).capabilities =
        [cap_scene_controller_no_deactivation,
         endpoint_health_capability, alexa_interface_capability] ∧
      (get_endpoint_from_v2_appliance a).displayCategories = ["SCENE_TRIGGER"]) ∧
    (a.modelName = "Smart Activity" →
      (get_endpoint_from_v2_appliance a).capabilities =
        [cap_scene_controller_with_deactivation,
         endpoint_health_capability, alexa_interface_capability] ∧
      (get_endpoint_from_v2_appliance a).displayCategories = ["ACTIVITY_TRIGGER"]) ∧
    (a.modelName = "Smart Camera" →
      (get_endpoint_from_v2_appliance a).capabilities =
        [cap_camera_stream_controller,
         endpoint_health_capability, alexa_interface_capability] ∧
      (get_endpoint_from_v2_appliance a).displayCategories = ["CAMERA"]) := by
  refine ⟨?_, ?_, ?_, ?_, ?_, ?_, ?_, ?_, ?_, ?_⟩ <;> intro h
  · simp only [knownModelNames, List.mem_cons, List.not_mem_nil, or_false, not_or] at h
    obtain ⟨h1, h2, h3, h4, h5, h6, h7, h8, h9⟩ := h
    simp [get_endpoint_from_v2_appliance, get_capabilities_from_v2_appliance,
      get_display_categories_from_v2_appliance, h1, h2, h3, h4, h5, h6, h7, h8, h9]
  all_goals
    simp [get_endpoint_from_v2_appliance, get_capabilities_from_v2_appliance,
      get_display_categories_from_v2_appliance, h]

/-- A concrete descriptor whose model name is in neither lookup table. -/
def unknownModelAppliance : Appliance :=
  { applianceId := "node_99",
    manufacturerName := "Acme",
    modelName := "Smart Toaster",
    version := "1",
    friendlyName := "Toasty",
    friendlyDescription := "099 An unclassified appliance",
    isReachable := true,
    actions := ["turnOn", "turnOff"],
    additionalApplianceDetails := { deviceId := "dev0", nodeId := "99" } }

/-- Witness for C2 at the concrete unknown model "Smart Toaster". -/
theorem translate_matches_lookup_tables_witness :
    (get_endpoint_from_v2_appliance unknownModelAppliance).capabilities =
      [cap_power_controller, endpoint_health_capability, alexa_interface_capability] ∧
    (get_endpoint_from_v2_appliance unknownModelAppliance).displayCategories = ["OTHER"] :=
  (translate_matches_lookup_tables unknownModelAppliance).1 (by decide)

/-- The HSV color object of a v3 `SetColor` payload.  The handler never
inspects it (the HSV-to-RGB conversion is commented out in the source);
it is only echoed back, so its numeric representation is irrelevant. -/
structure HsvColor where
  hue : Int
  saturation : Int
  brightness : Int
deriving DecidableEq

/-- `scope` of a v3 directive endpoint. -/
structure Scope where
  type : String
  token : String
deriving DecidableEq

/-- `endpoint` of a v3 directive. -/
structure V3Endpoint where
  endpointId : String
  scope : Scope
  cookie : Cookie
deriving DecidableEq

/-- `header` of a v3 directive. -/
structure V3Header where
  nameSpace : String
  name : String
  payloadVersion : String
  messageId : String
  correlationToken : String
deriving DecidableEq

/-- `payload` of a v3 directive; only the keys the handlers read are
modelled, each optional because a directive carries only its own keys. -/
structure V3Payload where
  brightness : Option Int := none
  brightnessDelta : Option Int := none
  colorTemperatureInKelvin : Option Int := none
  color : Option HsvColor := none
deriving DecidableEq

/-- The `directive` object of a v3 request. -/
structure V3Directive where
  header : V3Header
  endpoint : V3Endpoint
  payload : V3Payload
deriving DecidableEq

/-- `header` of a v2 request. -/
structure V2Header where
  nameSpace : String
  name : String
  payloadVersion : String
  messageId : String
deriving DecidableEq

/-- The `appliance` object of a v2 control payload. -/
structure V2ApplianceRef where
  applianceId : String
  additionalApplianceDetails : Cookie
deriving DecidableEq

/-- `payload` of a v2 request; `percentageStateValue` models
`payload["percentageState"]["value"]`. -/
structure V2Payload where
  accessToken : String
  appliance : Option V2ApplianceRef := none
  percentageStateValue : Option Int := none
deriving DecidableEq

/-- An incoming request: a JSON object that may carry the v3 `directive`
key and/or the v2 `header` / `payload` keys.  Absent keys are `none`;
probing an absent key raises `KeyError` in the source. -/
structure Request where
  directive : Option V3Directive := none
  header : Option V2Header := none
  payload : Option V2Payload := none
deriving DecidableEq

/-- A vendor command object handed to `sparkDevice.JSONCommand`, one
constructor per dictionary shape built by the handlers. -/
inductive CmdObj where
  /-- `dict(cmd=8, nd=…, msg=1, ack=1, tag=…, pl="1")` -/
  | tagged (cmd : Nat) (nd : Int) (msg : Nat) (ack : Nat) (tag : Nat) (pl : String)
  /-- `dict(cmd=1, nd=…, state=…)` -/
  | state (cmd : Nat) (nd : Int) (state : Nat)
  /-- `dict(cmd=…, nd=…, value=…)` (brightness cmd=3, color temperature cmd=5) -/
  | value (cmd : Nat) (nd : Int) (value : Int)
  /-- `dict(cmd=2, nd=…)` with `ring` list -/
  | ring (cmd : Nat) (nd : Int) (ring : List Nat)
deriving DecidableEq

/-- A value reported in `context.properties`. -/
inductive PropValue where
  | s : String → PropValue
  | i : Int → PropValue
  | color : HsvColor → PropValue
deriving DecidableEq

/-- One entry of `context.properties` in a v3 response. -/
structure ContextProperty where
  nameSpace : String
  name : String
  value : PropValue
  timeOfSample : String
  uncertaintyInMilliseconds : Nat
deriving DecidableEq

/-- `event.header` of a v3 response (`correlationToken` is absent in the
AcceptGrant response). -/
structure RespHeader where
  nameSpace : String
  name : String
  payloadVersion : String
  messageId : String
  correlationToken : Option String := none
deriving DecidableEq

/-- `event.endpoint` of a v3 response. -/
structure RespEndpoint where
  scopeType : String
  scopeToken : String
  endpointId : String
deriving DecidableEq

/-- A v3 response envelope; `context` and `event.endpoint` are absent in
the AcceptGrant response, and `event.payload` is always `{}`. -/
structure V3Response where
  context : Option (List ContextProperty)
  header : RespHeader
  endpoint : Option RespEndpoint
deriving DecidableEq

/-- What one call of `handle_non_discovery_v3` did: the commands sent to
the device cloud (in order), and the returned response. -/
structure V3Output where
  sent : List CmdObj
  response : V3Response
deriving DecidableEq

/-- Result of `handle_non_discovery_v3`: a returned response, a fall off
the end of the function (Python `None`), or an uncaught exception. -/
inductive V3Ret where
  | response : V3Output → V3Ret
  | pyNone : V3Ret
  | exn : V3Ret
deriving DecidableEq

/-- Result of `handle_non_discovery` (v2): a returned response together
with the commands sent, an uncaught exception, or the
`UnboundLocalError` raised when `header` was never assigned. -/
inductive V2Ret where
  | response : List CmdObj → V2Header → V2Ret
  | exn : V2Ret
  | unboundLocal : V2Ret
deriving DecidableEq

/-- `get_directive_version` (lambda.py): probe the v3 header location,
then the v2 header location, else the sentinel "-1". -/
def get_directive_version (request : Request) : String :=
  match request.directive with
  | some d => d.header.payloadVersion
  | none =>
    match request.header with
    | some h => h.payloadVersion
    | none => "-1"

/-- `get_directive_deviceid` (lambda.py): v3 cookie, then v2 appliance
details, then the configured default. -/
def get_directive_deviceid (cfg : Config) (request : Request) : String :=
  match request.directive with
  | some d => d.endpoint.cookie.deviceId
  | none =>
    match request.payload with
    | some p =>
      match p.appliance with
      | some ap => ap.additionalApplianceDetails.deviceId
      | none => cfg.PARTICLE_DEVICE_ID
    | none => cfg.PARTICLE_DEVICE_ID

/-- Accumulating decimal parser over a character list; fails on the
first non-digit character. -/
def natFromDigitsAux : List Char → Nat → Option Nat
  | [], acc => some acc
  | c :: cs, acc =>
    if c.isDigit then natFromDigitsAux cs (acc * 10 + (c.toNat - 48)) else none

/-- Decimal parser over a character list; the empty list fails. -/
def natFromDigits : List Char → Option Nat
  | [] => none
  | cs => natFromDigitsAux cs 0

/-- Python `int(str)` on a decimal string (optionally signed), the only
form the node ids take: `none` models the `ValueError` raised on a
non-numeric string. -/
def str_to_int (s : String) : Option Int :=
  match s.data with
  | '-' :: rest => (natFromDigits rest).map (fun n => -(n : Int))
  | cs => (natFromDigits cs).map (fun n => (n : Int))

/-- `get_directive_nodeid` (lambda.py): `int(...)` of the v3 cookie node
id, then of the v2 appliance details node id, then of the configured
default.  Any failure (missing key or non-numeric string) falls through
to the next probe; a non-numeric configured default would raise an
uncaught `ValueError`, modelled as `none`. -/
def get_directive_nodeid (cfg : Config) (request : Request) : Option Int :=
  match (do let d ← request.directive; str_to_int d.endpoint.cookie.nodeId) with
  | some n => some n
  | none =>
    match (do
        let p ← request.payload
        let ap ← p.appliance
        str_to_int ap.additionalApplianceDetails.nodeId) with
    | some n => some n
    | none => str_to_int cfg.PARTICLE_NODE_MAIN

/-- `get_directive_model` (lambda.py): resolve the appliance id from the
v3 endpoint, then the v2 payload, then the first catalog entry; look it
up in the catalog and fall back to the configured default model. -/
def get_directive_model (cfg : Config) (request : Request) : String :=
  let appliance_id :=
    match request.directive with
    | some d => d.endpoint.endpointId
    | none =>
      match (do let p ← request.payload; let ap ← p.appliance; pure ap.applianceId) with
      | some i => i
      | none => ((SAMPLE_APPLIANCES cfg).headI).applianceId
  match get_appliance_by_appliance_id cfg appliance_id with
  | none => cfg.PARTICLE_DEFAULT_MODEL
  | some appliance => appliance.modelName

/-- `handle_non_discovery` (lambda.py, v2): dispatch on the directive
name; the three recognized names assign `header`, optionally send a
command when the device is connected, and return `{header, payload:{}}`;
any other name leaves `header` unassigned, so building the response
raises `UnboundLocalError`. -/
def handle_non_discovery (cfg : Config) (connected : Bool) (uuid : String)
    (request : Request) : V2Ret :=
  match request.header with
  | none => .exn
  | some hdr =>
    match request.payload with
    | none => .exn
    | some pl =>
      let request_name := hdr.name
      match get_directive_nodeid cfg request with
      | none => .exn
      | some particle_node =>
        let particle_model := get_directive_model cfg request
        if request_name = "TurnOnRequest" then
          let header : V2Header :=
            { nameSpace := "Alexa.ConnectedHome.Control", name := "TurnOnConfirmation",
              payloadVersion := "2", messageId := uuid }
          let sent : List CmdObj :=
            if connected then
              [if particle_model = "Smart Switch" then
                 .tagged 8 particle_node 1 1 65 "1"
               else
                 .state 1 particle_node 1]
            else []
          .response sent header
        else if request_name = "TurnOffRequest" then
          let header : V2Header :=
            { nameSpace := "Alexa.ConnectedHome.Control", name := "TurnOffConfirmation",
              payloadVersion := "2", messageId := uuid }
          let sent : List CmdObj :=
            if connected then
              [if particle_model = "Smart Switch" then
                 .tagged 8 particle_node 1 1 66 "1"
               else
                 .state 1 particle_node 0]
            else []
          .response sent header
        else if request_name = "SetPercentageRequest" then
          let header : V2Header :=
            { nameSpace := "Alexa.ConnectedHome.Control", name := "SetPercentageConfirmation",
              payloadVersion := "2", messageId := uuid }
          if connected then
            match pl.percentageStateValue with
            | none => .exn
            | some brightness => .response [.value 3 particle_node brightness] header
          else
            .response [] header
        else
          .unboundLocal

/-- The `context.properties` singleton built by the v3 control branches. -/
def mk_context_property (nameSpace name : String) (value : PropValue)
    (ts : String) : ContextProperty :=
  { nameSpace := nameSpace, name := name, value := value,
    timeOfSample := ts, uncertaintyInMilliseconds := 500 }

/-- The `event` part shared by all v3 control responses: an `Alexa`
`Response` header with a fresh message id, the echoed correlation token,
and the fixed bearer-token endpoint block of the source. -/
def mk_control_response (props : List ContextProperty) (uuid : String)
    (d : V3Directive) : V3Response :=
  { context := some props,
    header := { nameSpace := "Alexa", name := "Response", payloadVersion := "3",
                messageId := uuid, correlationToken := some d.header.correlationToken },
    endpoint := some { scopeType := "BearerToken",
                       scopeToken := "access-token-from-Amazon",
                       endpointId := d.endpoint.endpointId } }

/-- `handle_non_discovery_v3` (lambda.py): dispatch on the directive
namespace/name, optionally send a vendor command when the device is
connected, and build the v3 response.  Falling off the end of the
Python function is `pyNone`; a missing payload key or an unresolvable
node id is `exn`. -/
def handle_non_discovery_v3 (cfg : Config) (connected : Bool) (uuid ts : String)
    (request : Request) : V3Ret :=
  match request.directive with
  | none => .exn
  | some d =>
    let request_namespace := d.header.nameSpace
    let request_name := d.header.name
    match get_directive_nodeid cfg request with
    | none => .exn
    | some particle_node =>
      let particle_model := get_directive_model cfg request
      if request_namespace = "Alexa.PowerController" then
        let value := if request_name = "TurnOn" then "ON" else "OFF"
        let sent : List CmdObj :=
          if connected then
            [if particle_model = "Smart Switch" then
               .tagged 8 particle_node 1 1 (if value = "ON" then 65 else 66) "1"
             else
               .state 1 particle_node (if value = "ON" then 1 else 0)]
          else []
        .response ⟨sent,
          mk_control_response
            [mk_context_property "Alexa.PowerController" "powerState" (.s value) ts]
            uuid d⟩
      else if request_namespace = "Alexa.BrightnessController" then
        if request_name = "SetBrightness" then
          match d.payload.brightness with
          | none => .exn
          | some brightness =>
            let sent : List CmdObj :=
              if connected then [.value 3 particle_node brightness] else []
            .response ⟨sent,
              mk_control_response
                [mk_context_property "Alexa.BrightnessController" "brightness"
                  (.i brightness) ts]
                uuid d⟩
        else if request_name = "AdjustBrightness" then
          match d.payload.brightnessDelta with
          | none => .exn
          | some brightness =>
            -- ToDo in the source: no cloud interface yet, nothing is sent
            .response ⟨[],
              mk_control_response
                [mk_context_property "Alexa.BrightnessController" "brightness"
                  (.i brightness) ts]
                uuid d⟩
        else .pyNone
      else if request_namespace = "Alexa.ColorTemperatureController" then
        -- `cct` starts from the constant 5000 on every request
        match (if request_name = "SetColorTemperature" then
                 d.payload.colorTemperatureInKelvin.map (fun v => v)
               else some (5000 : Int)) with
        | none => .exn
        | some cct0 =>
          let cct : Int :=
            if request_name = "SetColorTemperature" then cct0
            else if request_name = "DecreaseColorTemperature" then
              let c := cct0 - 200
              if c < 3000 then 3000 else c
            else if request_name = "IncreaseColorTemperature" then
              let c := cct0 + 200
              if c > 6500 then 6500 else c
            else cct0
          let sent : List CmdObj :=
            if connected then [.value 5 particle_node cct] else []
          .response ⟨sent,
            mk_control_response
              [mk_context_property "Alexa.ColorTemperatureController"
                "colorTemperatureInKelvin" (.i cct) ts]
              uuid d⟩
      else if request_namespace = "Alexa.ColorController" then
        if request_name = "SetColor" then
          let rgb_color : List Nat := [0, 255, 0, 0]
          match d.payload.color with
          | none => .exn
          | some hsv_color =>
            let sent : List CmdObj :=
              if connected then [.ring 2 particle_node ([0, 1, 80] ++ rgb_color)] else []
            .response ⟨sent,
              mk_control_response
                [mk_context_property "Alexa.ColorController" "color"
                  (.color hsv_color) ts]
                uuid d⟩
        else .pyNone
      else if request_namespace = "Alexa.Authorization" then
        if request_name = "AcceptGrant" then
          .response ⟨[],
            { context := none,
              header := { nameSpace := "Alexa.Authorization", name := "AcceptGrant.Response",
                          payloadVersion := "3",
                          messageId := "5f8a426e-01e4-4cc9-8b79-65f8bd0fd8a4" },
              endpoint := none }⟩
        else .pyNone
      else .pyNone

/-- `handle_discovery` (lambda.py, v2): a discovery response header with
a fresh message id over the full catalog. -/
def handle_discovery (cfg : Config) (uuid : String) : V2Header × List Appliance :=
  ({ nameSpace := "Alexa.ConnectedHome.Discovery", name := "DiscoverAppliancesResponse",
     payloadVersion := "2", messageId := uuid },
   SAMPLE_APPLIANCES cfg)

/-- `handle_discovery_v3` (lambda.py): a v3 discovery response header
with a fresh message id over the translated catalog. -/
def handle_discovery_v3 (cfg : Config) (uuid : String) : RespHeader × List Endpoint :=
  ({ nameSpace := "Alexa.Discovery", name := "Discover.Response",
     payloadVersion := "3", messageId := uuid },
   (SAMPLE_APPLIANCES cfg).map get_endpoint_from_v2_appliance)

/-- The commands a v3 handler invocation sent to the device cloud. -/
def v3SentCmds : V3Ret → List CmdObj
  | .response out => out.sent
  | _ => []

/-- The value of the first `context.properties` entry of a returned v3
response, when there is one. -/
def v3ReportedValue : V3Ret → Option PropValue
  | .response out => (out.response.context.bind List.head?).map ContextProperty.value
  | _ => none

/-- The `event.header.messageId` of a returned v3 response. -/
def v3MessageId : V3Ret → Option String
  | .response out => some out.response.header.messageId
  | _ => none

/-- The `event.header.namespace` of a returned v3 response. -/
def v3RespNamespace : V3Ret → Option String
  | .response out => some out.response.header.nameSpace
  | _ => none

/-- The commands a v2 handler invocation sent to the device cloud. -/
def v2SentCmds : V2Ret → List CmdObj
  | .response sent _ => sent
  | _ => []

/-- The `header.messageId` of a returned v2 response. -/
def v2MessageId : V2Ret → Option String
  | .response _ hdr => some hdr.messageId
  | _ => none

/-- The numeric `value` field of a command object, for the value-command
shape. -/
def cmdValue : CmdObj → Option Int
  | .value _ _ v => some v
  | _ => none

/-- Evaluation of the color-temperature branch on a decrease directive:
the encoded and reported value is always 4800K (the per-request baseline
is the constant 5000K, minus the 200K step, above the 3000K clamp). -/
theorem ct_decrease_eval (cfg : Config) (connected : Bool) (uuid ts : String)
    (req : Request) (d : V3Directive) (n : Int)
    (hd : req.directive = some d)
    (hns : d.header.nameSpace = "Alexa.ColorTemperatureController")
    (hname : d.header.name = "DecreaseColorTemperature")
    (hn : get_directive_nodeid cfg req = some n) :
    v3ReportedValue (handle_non_discovery_v3 cfg connected uuid ts req) =
      some (.i 4800) ∧
    ∀ c ∈ v3SentCmds (handle_non_discovery_v3 cfg connected uuid ts req),
      cmdValue c = some 4800 := by
  cases connected <;>
    simp [handle_non_discovery_v3, hd, hn, hns, hname, v3ReportedValue, v3SentCmds,
      cmdValue, mk_control_response, mk_context_property]

/-- Evaluation of the color-temperature branch on an increase directive:
the encoded and reported value is always 5200K (5000K plus 200K, below
the 6500K clamp). -/
theorem ct_increase_eval (cfg : Config) (connected : Bool) (uuid ts : String)
    (req : Request) (d : V3Directive) (n : Int)
    (hd : req.directive = some d)
    (hns : d.header.nameSpace = "Alexa.ColorTemperatureController")
    (hname : d.header.name = "IncreaseColorTemperature")
    (hn : get_directive_nodeid cfg req = some n) :
    v3ReportedValue (handle_non_discovery_v3 cfg connected uuid ts req) =
      some (.i 5200) ∧
    ∀ c ∈ v3SentCmds (handle_non_discovery_v3 cfg connected uuid ts req),
      cmdValue c = some 5200 := by
  cases connected <;>
    simp [handle_non_discovery_v3, hd, hn, hns, hname, v3ReportedValue, v3SentCmds,
      cmdValue, mk_control_response, mk_context_property]

/-- C5: a DecreaseColorTemperature directive yields the encoded and
reported value 4800K (5000K minus 200K); over any sequence of decrease
requests every produced value stays at or above 3000K, and over any
sequence of increase requests every produced value stays at or below
6500K. -/
theorem color_temperature_clamp (cfg : Config) (connected : Bool) (uuid ts : String) :
    (∀ (req : Request) (d : V3Directive), req.directive = some d →
      d.header.nameSpace = "Alexa.ColorTemperatureController" →
      d.header.name = "DecreaseColorTemperature" →
      (get_directive_nodeid cfg req).isSome →
      v3ReportedValue (handle_non_discovery_v3 cfg connected uuid ts req) =
        some (.i 4800) ∧
      ∀ c ∈ v3SentCmds (handle_non_discovery_v3 cfg connected uuid ts req),
        cmdValue c = some 4800) ∧
    (∀ reqs : List Request,
      (∀ r ∈ reqs, ∀ d : V3Directive, r.directive = some d →
        d.header.nameSpace = "Alexa.ColorTemperatureController" ∧
        d.header.name = "DecreaseColorTemperature") →
      ∀ r ∈ reqs, ∀ v : Int,
        v3ReportedValue (handle_non_discovery_v3 cfg connected uuid ts r) =
          some (.i v) →
        3000 ≤ v) ∧
    (∀ reqs : List Request,
      (∀ r ∈ reqs, ∀ d : V3Directive, r.directive = some d →
        d.header.nameSpace = "Alexa.ColorTemperatureController" ∧
        d.header.name = "IncreaseColorTemperature") →
      ∀ r ∈ reqs, ∀ v : Int,
        v3ReportedValue (handle_non_discovery_v3 cfg connected uuid ts r) =
          some (.i v) →
        v ≤ 6500) := by
  refine ⟨?_, ?_, ?_⟩
  · intro req d hd hns hname hn
    obtain ⟨n, hn'⟩ := Option.isSome_iff_exists.mp hn
    exact ct_decrease_eval cfg connected uuid ts req d n hd hns hname hn'
  · intro reqs hall r hr v hv
    cases hdir : r.directive with
    | none => simp [handle_non_discovery_v3, hdir, v3ReportedValue] at hv
    | some d =>
      obtain ⟨hns, hname⟩ := hall r hr d hdir
      cases hn : get_directive_nodeid cfg r with
      | none => simp [handle_non_discovery_v3, hdir, hn, v3ReportedValue] at hv
      | some n =>
        have h48 := ct_decrease_eval cfg connected uuid ts r d n hdir hns hname hn
        rw [h48.1] at hv
        simp only [Option.some.injEq, PropValue.i.injEq] at hv
        omega
  · intro reqs hall r hr v hv
    cases hdir : r.directive with
    | none => simp [handle_non_discovery_v3, hdir, v3ReportedValue] at hv
    | some d =>
      obtain ⟨hns, hname⟩ := hall r hr d hdir
      cases hn : get_directive_nodeid cfg r with
      | none => simp [handle_non_discovery_v3, hdir, hn, v3ReportedValue] at hv
      | some n =>
        have h52 := ct_increase_eval cfg connected uuid ts r d n hdir hns hname hn
        rw [h52.1] at hv
        simp only [Option.some.injEq, PropValue.i.injEq] at hv
        omega

/-- C7: a v3 SetBrightness directive with brightness 42 produces a
command whose numeric value field is 42 (whenever a command is encoded)
and a response whose reported brightness property is 42, for either
value of the connectivity flag. -/
theorem set_brightness_roundtrip (cfg : Config) (connected : Bool) (uuid ts : String)
    (req : Request) (d : V3Directive) (n : Int)
    (hd : req.directive = some d)
    (hns : d.header.nameSpace = "Alexa.BrightnessController")
    (hname : d.header.name = "SetBrightness")
    (hb : d.payload.brightness = some 42)
    (hn : get_directive_nodeid cfg req = some n) :
    v3ReportedValue (handle_non_discovery_v3 cfg connected uuid ts req) =
      some (.i 42) ∧
    ∀ c ∈ v3SentCmds (handle_non_discovery_v3 cfg connected uuid ts req),
      cmdValue c = some 42 := by
  cases connected <;>
    simp [handle_non_discovery_v3, hd, hn, hns, hname, hb, v3ReportedValue, v3SentCmds,
      cmdValue, mk_control_response, mk_context_property]

/-- C9: a v3 AdjustBrightness directive sends no command at all (even on
a connected device) and echoes the inbound relative delta back as the
reported absolute brightness. -/
theorem adjust_brightness_echoes_delta (cfg : Config) (connected : Bool) (uuid ts : String)
    (req : Request) (d : V3Directive) (delta n : Int)
    (hd : req.directive = some d)
    (hns : d.header.nameSpace = "Alexa.BrightnessController")
    (hname : d.header.name = "AdjustBrightness")
    (hdelta : d.payload.brightnessDelta = some delta)
    (hn : get_directive_nodeid cfg req = some n) :
    v3SentCmds (handle_non_discovery_v3 cfg connected uuid ts req) = [] ∧
    v3ReportedValue (handle_non_discovery_v3 cfg connected uuid ts req) =
      some (.i delta) := by
  cases connected <;>
    simp [handle_non_discovery_v3, hd, hn, hns, hname, hdelta, v3ReportedValue,
      v3SentCmds, mk_control_response, mk_context_property]

/-- C10: a v3 SetColor directive on a connected device sends the fixed
ring command [0, 1, 80, 0, 255, 0, 0] regardless of the requested HSV
color, while the response echoes the inbound color object verbatim. -/
theorem set_color_fixed_ring (cfg : Config) (uuid ts : String)
    (req : Request) (d : V3Directive) (hsv : HsvColor) (n : Int)
    (hd : req.directive = some d)
    (hns : d.header.nameSpace = "Alexa.ColorController")
    (hname : d.header.name = "SetColor")
    (hc : d.payload.color = some hsv)
    (hn : get_directive_nodeid cfg req = some n) :
    v3SentCmds (handle_non_discovery_v3 cfg true uuid ts req) =
      [CmdObj.ring 2 n [0, 1, 80, 0, 255, 0, 0]] ∧
    v3ReportedValue (handle_non_discovery_v3 cfg true uuid ts req) =
      some (.color hsv) := by
  simp [handle_non_discovery_v3, hd, hn, hns, hname, hc, v3ReportedValue,
    v3SentCmds, mk_control_response, mk_context_property]

/-- C8: version detection probes the v3 header location first, then the
v2 header location; a request with `directive.header.payloadVersion =
"3"` reports "3", a request with only `header.payloadVersion = "2"`
reports "2", and a request with neither yields the sentinel "-1" (the
"unknown"-version value) rather than an exception. -/
theorem version_detection (r : Request) :
    (∀ d : V3Directive, r.directive = some d → d.header.payloadVersion = "3" →
      get_directive_version r = "3") ∧
    (r.directive = none → ∀ h : V2Header, r.header = some h →
      h.payloadVersion = "2" → get_directive_version r = "2") ∧
    (r.directive = none → r.header = none → get_directive_version r = "-1") := by
  refine ⟨?_, ?_, ?_⟩ <;> intros <;> simp_all [get_directive_version]

/-- C4: a v2 non-discovery request whose name matches none of the three
recognized directive names leaves the local `header` unassigned, so the
handler raises `UnboundLocalError` instead of returning a response. -/
theorem v2_unmatched_name_unbound (cfg : Config) (connected : Bool) (uuid : String)
    (req : Request) (hdr : V2Header) (pl : V2Payload)
    (hh : req.header = some hdr) (hp : req.payload = some pl)
    (hn : (get_directive_nodeid cfg req).isSome)
    (h1 : hdr.name ≠ "TurnOnRequest")
    (h2 : hdr.name ≠ "TurnOffRequest")
    (h3 : hdr.name ≠ "SetPercentageRequest") :
    handle_non_discovery cfg connected uuid req = V2Ret.unboundLocal := by
  obtain ⟨n, hn'⟩ := Option.isSome_iff_exists.mp hn
  simp [handle_non_discovery, hh, hp, hn', h1, h2, h3]

/-- C6: with a connected device, turn-on / turn-off directives targeting
a device that resolves to the "Smart Switch" model encode the tagged
message with tag 65 / 66 and ack 1; any other resolved model encodes the
simple state field 1 / 0.  Both the v3 PowerController branch and the v2
TurnOnRequest/TurnOffRequest branches are covered. -/
theorem power_command_encodings (cfg : Config) (uuid ts : String) :
    (∀ (req : Request) (d : V3Directive) (n : Int), req.directive = some d →
      d.header.nameSpace = "Alexa.PowerController" → d.header.name = "TurnOn" →
      get_directive_nodeid cfg req = some n →
      get_directive_model cfg req = "Smart Switch" →
      v3SentCmds (handle_non_discovery_v3 cfg true uuid ts req) =
        [CmdObj.tagged 8 n 1 1 65 "1"]) ∧
    (∀ (req : Request) (d : V3Directive) (n : Int), req.directive = some d →
      d.header.nameSpace = "Alexa.PowerController" → d.header.name = "TurnOff" →
      get_directive_nodeid cfg req = some n →
      get_directive_model cfg req = "Smart Switch" →
      v3SentCmds (handle_non_discovery_v3 cfg true uuid ts req) =
        [CmdObj.tagged 8 n 1 1 66 "1"]) ∧
    (∀ (req : Request) (d : V3Directive) (n : Int), req.directive = some d →
      d.header.nameSpace = "Alexa.PowerController" → d.header.name = "TurnOn" →
      get_directive_nodeid cfg req = some n →
      get_directive_model cfg req ≠ "Smart Switch" →
      v3SentCmds (handle_non_discovery_v3 cfg true uuid ts req) =
        [CmdObj.state 1 n 1]) ∧
    (∀ (req : Request) (d : V3Directive) (n : Int), req.directive = some d →
      d.header.nameSpace = "Alexa.PowerController" → d.header.name = "TurnOff" →
      get_directive_nodeid cfg req = some n →
      get_directive_model cfg req ≠ "Smart Switch" →
      v3SentCmds (handle_non_discovery_v3 cfg true uuid ts req) =
        [CmdObj.state 1 n 0]) ∧
    (∀ (req : Request) (hdr : V2Header) (pl : V2Payload) (n : Int),
      req.header = some hdr → req.payload = some pl →
      hdr.name = "TurnOnRequest" →
      get_directive_nodeid cfg req = some n →
      get_directive_model cfg req = "Smart Switch" →
      v2SentCmds (handle_non_discovery cfg true uuid req) =
        [CmdObj.tagged 8 n 1 1 65 "1"]) ∧
    (∀ (req : Request) (hdr : V2Header) (pl : V2Payload) (n : Int),
      req.header = some hdr → req.payload = some pl →
      hdr.name = "TurnOffRequest" →
      get_directive_nodeid cfg req = some n →
      get_directive_model cfg req = "Smart Switch" →
      v2SentCmds (handle_non_discovery cfg true uuid req) =
        [CmdObj.tagged 8 n 1 1 66 "1"]) ∧
    (∀ (req : Request) (hdr : V2Header) (pl : V2Payload) (n : Int),
      req.header = some hdr → req.payload = some pl →
      hdr.name = "TurnOnRequest" →
      get_directive_nodeid cfg req = some n →
      get_directive_model cfg req ≠ "Smart Switch" →
      v2SentCmds (handle_non_discovery cfg true uuid req) =
        [CmdObj.state 1 n 1]) ∧
    (∀ (req : Request) (hdr : V2Header) (pl : V2Payload) (n : Int),
      req.header = some hdr → req.payload = some pl →
      hdr.name = "TurnOffRequest" →
      get_directive_nodeid cfg req = some n →
      get_directive_model cfg req ≠ "Smart Switch" →
      v2SentCmds (handle_non_discovery cfg true uuid req) =
        [CmdObj.state 1 n 0]) := by
  refine ⟨?_, ?_, ?_, ?_, ?_, ?_, ?_, ?_⟩
  · intro req d n hd hns hname hn hm
    simp [handle_non_discovery_v3, hd, hn, hns, hname, hm, v3SentCmds]
  · intro req d n hd hns hname hn hm
    simp [handle_non_discovery_v3, hd, hn, hns, hname, hm, v3SentCmds]
  · intro req d n hd hns hname hn hm
    simp [handle_non_discovery_v3, hd, hn, hns, hname, hm, v3SentCmds]
  · intro req d n hd hns hname hn hm
    simp [handle_non_discovery_v3, hd, hn, hns, hname, hm, v3SentCmds]
  · intro req hdr pl n hh hp hname hn hm
    simp [handle_non_discovery, hh, hp, hn, hname, hm, v2SentCmds]
  · intro req hdr pl n hh hp hname hn hm
    simp [handle_non_discovery, hh, hp, hn, hname, hm, v2SentCmds]
  · intro req hdr pl n hh hp hname hn hm
    simp [handle_non_discovery, hh, hp, hn, hname, hm, v2SentCmds]
  · intro req hdr pl n hh hp hname hn hm
    simp [handle_non_discovery, hh, hp, hn, hname, hm, v2SentCmds]

/-- C3 (amended): every response of the two discovery handlers and of
the v2 control handler carries the freshly generated uuid as its message
id, and so does every v3 control response, with one exception: the
AcceptGrant response carries the fixed literal
"5f8a426e-01e4-4cc9-8b79-65f8bd0fd8a4" baked into the source, so two
AcceptGrant responses always share the same message id. -/
theorem message_ids_fresh_except_accept_grant (cfg : Config) (connected : Bool)
    (uuid ts : String) :
    (handle_discovery cfg uuid).1.messageId = uuid ∧
    (handle_discovery_v3 cfg uuid).1.messageId = uuid ∧
    (∀ (req : Request) (sent : List CmdObj) (hdr : V2Header),
      handle_non_discovery cfg connected uuid req = V2Ret.response sent hdr →
      hdr.messageId = uuid) ∧
    (∀ (req : Request) (out : V3Output),
      handle_non_discovery_v3 cfg connected uuid ts req = V3Ret.response out →
      (out.response.header.nameSpace ≠ "Alexa.Authorization" →
        out.response.header.messageId = uuid) ∧
      (out.response.header.nameSpace = "Alexa.Authorization" →
        out.response.header.messageId = "5f8a426e-01e4-4cc9-8b79-65f8bd0fd8a4")) := by
  refine ⟨rfl, rfl, ?_, ?_⟩
  · intro req sent hdr h
    simp only [handle_non_discovery] at h
    repeat' split at h
    all_goals first
      | exact V2Ret.noConfusion h
      | (injection h with h1 h2; subst h2; rfl)
  · intro req out h
    simp only [handle_non_discovery_v3, mk_control_response, mk_context_property] at h
    repeat' split at h
    all_goals first
      | exact V3Ret.noConfusion h
      | (injection h with h1; subst h1; simp)

/-- A concrete configuration used by the concrete test requests below. -/
def cfg0 : Config :=
  { PARTICLE_DEVICE_ID := "dev0", PARTICLE_NODE_MAIN := "1",
    PARTICLE_NODE_SECOND := "2", PARTICLE_NODE_KM := "3",
    PARTICLE_DEFAULT_MODEL := "Smart Light" }

/-- A v3 test directive targeting the catalog's switch ("node_3" under
`cfg0`), with the given namespace, name and payload. -/
def mkV3TestDirective (nameSpace name : String) (payload : V3Payload) : V3Directive :=
  { header := { nameSpace := nameSpace, name := name, payloadVersion := "3",
                messageId := "req-mid", correlationToken := "corr-w" },
    endpoint := { endpointId := "node_3",
                  scope := { type := "BearerToken", token := "tok" },
                  cookie := { deviceId := "dev0", nodeId := "3" } },
    payload := payload }

/-- Concrete TurnOn directive for the switch endpoint. -/
def turnOnSwitchDirective : V3Directive :=
  mkV3TestDirective "Alexa.PowerController" "TurnOn" {}

/-- Concrete TurnOn request for the switch endpoint. -/
def v3TurnOnSwitchRequest : Request := { directive := some turnOnSwitchDirective }

/-- Concrete DecreaseColorTemperature directive. -/
def ctDecreaseDirective : V3Directive :=
  mkV3TestDirective "Alexa.ColorTemperatureController" "DecreaseColorTemperature" {}

/-- Concrete DecreaseColorTemperature request. -/
def ctDecreaseRequest : Request := { directive := some ctDecreaseDirective }

/-- Concrete SetBrightness directive with brightness 42. -/
def setBrightnessDirective : V3Directive :=
  mkV3TestDirective "Alexa.BrightnessController" "SetBrightness" { brightness := some 42 }

/-- Concrete SetBrightness request with brightness 42. -/
def setBrightnessRequest : Request := { directive := some setBrightnessDirective }

/-- Concrete AdjustBrightness directive with delta 15. -/
def adjustBrightnessDirective : V3Directive :=
  mkV3TestDirective "Alexa.BrightnessController" "AdjustBrightness"
    { brightnessDelta := some 15 }

/-- Concrete AdjustBrightness request with delta 15. -/
def adjustBrightnessRequest : Request := { directive := some adjustBrightnessDirective }

/-- Concrete SetColor directive with an arbitrary HSV color. -/
def setColorDirective : V3Directive :=
  mkV3TestDirective "Alexa.ColorController" "SetColor"
    { color := some { hue := 120, saturation := 1, brightness := 1 } }

/-- Concrete SetColor request. -/
def setColorRequest : Request := { directive := some setColorDirective }

/-- Concrete AcceptGrant request. -/
def acceptGrantRequest : Request :=
  { directive := some (mkV3TestDirective "Alexa.Authorization" "AcceptGrant" {}) }

/-- Concrete v2 header with a directive name outside the three
recognized control names. -/
def v2UnmatchedHeader : V2Header :=
  { nameSpace := "Alexa.ConnectedHome.Control", name := "HealthCheckRequest",
    payloadVersion := "2", messageId := "req-mid" }

/-- Concrete v2 request with an unrecognized directive name. -/
def v2UnmatchedRequest : Request :=
  { header := some v2UnmatchedHeader, payload := some { accessToken := "tok" } }

/-- C3, counterexample: two AcceptGrant invocations supplied with two
distinct fresh uuids both return the hardcoded message id
"5f8a426e-01e4-4cc9-8b79-65f8bd0fd8a4", so their message ids are equal,
contradicting the claim that every pair of responses has differing,
freshly generated message ids. -/
theorem accept_grant_message_id_constant :
    ("uuid-a" : String) ≠ "uuid-b" ∧
    v3MessageId (handle_non_discovery_v3 cfg0 true "uuid-a" "ts-a" acceptGrantRequest) =
      some "5f8a426e-01e4-4cc9-8b79-65f8bd0fd8a4" ∧
    v3MessageId (handle_non_discovery_v3 cfg0 false "uuid-b" "ts-b" acceptGrantRequest) =
      some "5f8a426e-01e4-4cc9-8b79-65f8bd0fd8a4" := by
  refine ⟨by decide, by decide, by decide⟩

/-- The concrete output of the v3 handler on the TurnOn test request. -/
def v3TurnOnWitnessOutput : V3Output :=
  { sent := [CmdObj.tagged 8 3 1 1 65 "1"],
    response :=
      { context := some
          [{ nameSpace := "Alexa.PowerController", name := "powerState",
             value := PropValue.s "ON", timeOfSample := "ts-w",
             uncertaintyInMilliseconds := 500 }],
        header := { nameSpace := "Alexa", name := "Response", payloadVersion := "3",
                    messageId := "uuid-w", correlationToken := some "corr-w" },
        endpoint := some { scopeType := "BearerToken",
                           scopeToken := "access-token-from-Amazon",
                           endpointId := "node_3" } } }

/-- Witness for the amended C3 at a concrete non-AcceptGrant request. -/
theorem message_ids_fresh_witness :
    handle_non_discovery_v3 cfg0 true "uuid-w" "ts-w" v3TurnOnSwitchRequest =
      V3Ret.response v3TurnOnWitnessOutput ∧
    v3TurnOnWitnessOutput.response.header.messageId = "uuid-w" :=
  ⟨by decide,
   ((message_ids_fresh_except_accept_grant cfg0 true "uuid-w" "ts-w").2.2.2
       v3TurnOnSwitchRequest v3TurnOnWitnessOutput (by decide)).1 (by decide)⟩

/-- Witness for C4 at a concrete unmatched v2 request. -/
theorem v2_unmatched_name_unbound_witness :
    handle_non_discovery cfg0 true "uuid-w" v2UnmatchedRequest = V2Ret.unboundLocal :=
  v2_unmatched_name_unbound cfg0 true "uuid-w" v2UnmatchedRequest v2UnmatchedHeader
    { accessToken := "tok" } rfl rfl (by decide) (by decide) (by decide) (by decide)

/-- Witness for C5 at a concrete decrease request. -/
theorem color_temperature_clamp_witness :
    v3ReportedValue (handle_non_discovery_v3 cfg0 true "uuid-w" "ts-w" ctDecreaseRequest) =
      some (PropValue.i 4800) ∧
    ∀ c ∈ v3SentCmds (handle_non_discovery_v3 cfg0 true "uuid-w" "ts-w" ctDecreaseRequest),
      cmdValue c = some 4800 :=
  (color_temperature_clamp cfg0 true "uuid-w" "ts-w").1 ctDecreaseRequest
    ctDecreaseDirective rfl rfl rfl (by decide)

/-- Witness for C6 at the concrete TurnOn request for the switch. -/
theorem power_command_encodings_witness :
    v3SentCmds (handle_non_discovery_v3 cfg0 true "uuid-w" "ts-w" v3TurnOnSwitchRequest) =
      [CmdObj.tagged 8 3 1 1 65 "1"] :=
  (power_command_encodings cfg0 "uuid-w" "ts-w").1 v3TurnOnSwitchRequest
    turnOnSwitchDirective 3 rfl rfl rfl (by decide) (by decide)

/-- Witness for C7 at the concrete brightness-42 request. -/
theorem set_brightness_roundtrip_witness :
    v3ReportedValue
        (handle_non_discovery_v3 cfg0 true "uuid-w" "ts-w" setBrightnessRequest) =
      some (PropValue.i 42) ∧
    ∀ c ∈ v3SentCmds
        (handle_non_discovery_v3 cfg0 true "uuid-w" "ts-w" setBrightnessRequest),
      cmdValue c = some 42 :=
  set_brightness_roundtrip cfg0 true "uuid-w" "ts-w" setBrightnessRequest
    setBrightnessDirective 3 rfl rfl rfl rfl (by decide)

/-- Witness for C8 at concrete v3, v2 and empty requests. -/
theorem version_detection_witness :
    get_directive_version v3TurnOnSwitchRequest = "3" ∧
    get_directive_version v2UnmatchedRequest = "2" ∧
    get_directive_version {} = "-1" :=
  ⟨(version_detection v3TurnOnSwitchRequest).1 turnOnSwitchDirective rfl rfl,
   (version_detection v2UnmatchedRequest).2.1 rfl v2UnmatchedHeader rfl rfl,
   (version_detection {}).2.2 rfl rfl⟩

/-- Witness for C9 at the concrete delta-15 request. -/
theorem adjust_brightness_echoes_delta_witness :
    v3SentCmds (handle_non_discovery_v3 cfg0 true "uuid-w" "ts-w" adjustBrightnessRequest) =
      [] ∧
    v3ReportedValue
        (handle_non_discovery_v3 cfg0 true "uuid-w" "ts-w" adjustBrightnessRequest) =
      some (PropValue.i 15) :=
  adjust_brightness_echoes_delta cfg0 true "uuid-w" "ts-w" adjustBrightnessRequest
    adjustBrightnessDirective 15 3 rfl rfl rfl rfl (by decide)

/-- Witness for C10 at the concrete SetColor request. -/
theorem set_color_fixed_ring_witness :
    v3SentCmds (handle_non_discovery_v3 cfg0 true "uuid-w" "ts-w" setColorRequest) =
      [CmdObj.ring 2 3 [0, 1, 80, 0, 255, 0, 0]] ∧
    v3ReportedValue (handle_non_discovery_v3 cfg0 true "uuid-w" "ts-w" setColorRequest) =
      some (PropValue.color { hue := 120, saturation := 1, brightness := 1 }) :=
  set_color_fixed_ring cfg0 "uuid-w" "ts-w" setColorRequest setColorDirective
    { hue := 120, saturation := 1, brightness := 1 } 3 rfl rfl rfl rfl (by decide)
